import Mathlib

/-!
Verification of the Flowrensics job-orchestration engine.

Shallow embedding of the command builder (tool_executor.py), the
volatility plugin orchestration (volatility_executor.py) and the
hayabusa runner (hayabusa_executor.py), together with theorems that
settle the frozen claims about them.

Modelling conventions:
  - pathlib joins (the / operator) are modelled as string concatenation
    with a "/" separator; only the shape and count of the produced
    command vectors matter to the claims.
  - a child process is abstracted by its exit status (an integer) and,
    where a claim mentions decoding, by its merged output stream, given
    as a list of tokens that are either a correctly decoded character or
    one malformed byte sequence.
  - cross-thread interleavings are modelled as explicit schedules, lists
    of atomic actions applied to a state record by a step function.
-/

set_option linter.unusedVariables false

/- ──────────────────────────────────────────────────────────────────────
   ANSI escape stripping (hayabusa_executor.py, ANSI_RE).
   The source regex matches the byte 0x9B, or ESC followed by an opening
   square bracket, then any run of parameter bytes 0x30-0x3F, then any
   run of intermediate bytes 0x20-0x2F, then one final byte 0x40-0x7E;
   the runner substitutes every match by the empty string: scan left to
   right, remove every match, keep everything else.  The three character
   classes are pairwise disjoint, so the greedy match is deterministic.
   ────────────────────────────────────────────────────────────────────── -/

def isCSIParam (c : Char) : Bool := decide (0x30 ≤ c.toNat ∧ c.toNat ≤ 0x3F)

def isCSIInterm (c : Char) : Bool := decide (0x20 ≤ c.toNat ∧ c.toNat ≤ 0x2F)

def isCSIFinal (c : Char) : Bool := decide (0x40 ≤ c.toNat ∧ c.toNat ≤ 0x7E)

/-- Given the characters after the escape introducer, consume the run of
parameter bytes, then the run of intermediate bytes, then one final
byte; return the remainder on a full match and none when the final byte
is missing. -/
def csiTail (l : List Char) : Option (List Char) :=
  match (l.dropWhile isCSIParam).dropWhile isCSIInterm with
  | c :: rest => if isCSIFinal c then some rest else none
  | [] => none

/-- Left-to-right removal of every ANSI_RE match, as re.sub does: a
match starts with the single CSI byte 0x9B or with ESC followed by an
opening square bracket; on a failed match the scanner keeps the current
character and resumes at the next position. -/
def ansiStrip : List Char → List Char
  | [] => []
  | c :: rest =>
    if c.toNat = 0x9B then
      match h : csiTail rest with
      | some r => ansiStrip r
      | none => c :: ansiStrip rest
    else if c.toNat = 0x1B then
      match rest with
      | '[' :: rest2 =>
        match h2 : csiTail rest2 with
        | some r => ansiStrip r
        | none => c :: ansiStrip ('[' :: rest2)
      | other => c :: ansiStrip other
    else c :: ansiStrip rest
termination_by l => l.length
decreasing_by
  all_goals simp_wf
  · have hle : ((rest.dropWhile isCSIParam).dropWhile isCSIInterm).length ≤ rest.length :=
      ((List.dropWhile_suffix _).trans (List.dropWhile_suffix _)).length_le
    unfold csiTail at h
    split at h
    next c1 r1 heq =>
      split at h
      · cases h
        rw [heq] at hle
        simp at hle
        omega
      · cases h
    next => cases h
  · have hle : ((rest2.dropWhile isCSIParam).dropWhile isCSIInterm).length ≤ rest2.length :=
      ((List.dropWhile_suffix _).trans (List.dropWhile_suffix _)).length_le
    unfold csiTail at h2
    split at h2
    next c1 r1 heq =>
      split at h2
      · cases h2
        rw [heq] at hle
        simp at hle
        omega
      · cases h2
    next => cases h2

/-- Python str.strip() on the ASCII whitespace characters that can occur
in the decoded stream. -/
def isPyWS (c : Char) : Bool :=
  decide (c = ' ' ∨ c = '\t' ∨ c = '\n' ∨ c = '\r' ∨ c.toNat = 0x0B ∨ c.toNat = 0x0C)

/-- Python str.strip(): drop whitespace from both ends. -/
def trimChars (l : List Char) : List Char :=
  ((l.dropWhile isPyWS).reverse.dropWhile isPyWS).reverse

/- ──────────────────────────────────────────────────────────────────────
   Command builder (tool_executor.py, ToolExecutor._build_commands) and
   the discovery helper (utils.py, list_user_directories).
   ────────────────────────────────────────────────────────────────────── -/

/-- Join two path components, modelling the pathlib / operator. -/
def pj (a b : String) : String := a ++ "/" ++ b

def OUTPUT_DIR : String := "Output"

def OUTPUT_USERASSIST : String := "Output/UserAssist"

def OUTPUT_REGISTRY : String := "Output/Registry"

def OUTPUT_SHELLBAG : String := "Output/ShellBag"

/-- utils.list_user_directories: immediate subdirectory names of the
base directory, excluding Default and Public; a missing base directory
(FileNotFoundError) yields the empty list.  The argument is none when
the base directory does not exist and otherwise the list of its
subdirectory names. -/
def listUserDirectories : Option (List String) → List String
  | none => []
  | some entries => entries.filter (fun n => !(n == "Default" || n == "Public"))

/-- Event id list passed to EvtxECmd via its inc flag (the adjacent
string literals of the source concatenate to this single string). -/
def evtxIncIds : String :=
  "4624,4625,4634,4647,4672,4676,4648,1024,1102,4778,4779,131,98,1149,21,22,25,41,4768,4769,5140,5145,7045,4698,4702,4699,4700,4701,106,140,141,200,201,7034,7035,7036,7040,5857,5860,5861,4103,4104,53504,400,401,402,403,800,91,142,169"

/-- One entry of the build dictionary of ToolExecutor._build_commands:
the command lists a recognised tool name expands to, given the EZ-Tools
directory, the triage root and the discovered user directories.  An
unrecognised name yields none (the source logs a warning and skips it). -/
def buildFor (tool directory root : String) (users : List String) :
    Option (List (List String)) :=
  match tool with
  | "AmcacheParser.exe" => some
      [[pj directory "AmcacheParser.exe", "-f",
        pj root "Windows/AppCompat/Programs/Amcache.hve",
        "--csv", OUTPUT_DIR, "--csvf", "amcache_parsed.csv"]]
  | "AppCompatCacheParser.exe" => some
      [[pj directory "AppCompatCacheParser.exe", "-f",
        pj root "Windows/System32/config/SYSTEM",
        "--csv", OUTPUT_DIR, "--csvf", "shimcache_parsed.csv"]]
  | "EvtxECmd\\EvtxECmd.exe" => some
      [[pj directory "EvtxECmd/EvtxECmd.exe", "-d",
        pj root "Windows/System32/winevt/logs",
        "--csv", OUTPUT_DIR, "--csvf", "evtx_parsed.csv", "--inc", evtxIncIds]]
  | "JLECmd.exe" => some
      (users.map fun user =>
        [pj directory "JLECmd.exe", "-d",
         pj root ("Users/" ++ user ++ "/AppData/Roaming/Microsoft/Windows/Recent/AutomaticDestinations"),
         "--csv", OUTPUT_DIR, "--csvf", "jumplist_" ++ user ++ "_parsed.csv", "-q"])
  | "LECmd.exe" => some
      (users.map fun user =>
        [pj directory "LECmd.exe", "-d",
         pj root ("Users/" ++ user ++ "/AppData/Roaming/Microsoft/Windows/Recent"),
         "--csv", OUTPUT_DIR, "--csvf", "lnk_" ++ user ++ "_parsed.csv", "-q"])
  | "MFTECmd.exe" => some
      [[pj directory "MFTECmd.exe", "-f", pj root "$MFT",
        "--csv", OUTPUT_DIR, "--csvf", "mft_parsed.csv"],
       [pj directory "MFTECmd.exe", "-f", pj root "$Extend/$J", "-m", pj root "$MFT",
        "--csv", OUTPUT_DIR, "--csvf", "usn_parsed.csv"]]
  | "PECmd.exe" => some
      [[pj directory "PECmd.exe", "-d", pj root "Windows/prefetch",
        "--csv", OUTPUT_DIR, "--csvf", "prefetch_parsed.csv", "-q", "--vss"]]
  | "RECmd\\RECmd.exe" => some
      ((users.map fun user =>
        [pj directory "RECmd/RECmd.exe", "-f",
         pj root ("Users/" ++ user ++ "/NTUSER.DAT"),
         "--bn", pj directory "RECmd/BatchExamples/BatchExampleUserAssist.reb",
         "--csv", OUTPUT_USERASSIST, "--csvf", "userassist_" ++ user ++ ".csv", "--nl"])
      ++ [[pj directory "RECmd/RECmd.exe", "-d", root,
           "--bn", pj directory "RECmd/BatchExamples/DFIRBatch.reb",
           "--csv", OUTPUT_REGISTRY, "--nl"]])
  | "SBECmd.exe" => some
      (users.map fun user =>
        [pj directory "SBECmd.exe", "-d", pj root ("Users/" ++ user),
         "--csv", OUTPUT_SHELLBAG])
  | _ => none

/-- ToolExecutor._build_commands without the filesystem bookkeeping:
iterate over the selection, extend with the dictionary entry when the
tool is recognised, skip it (with a logged warning) otherwise. -/
def buildCommands (tools : List String) (directory root : String)
    (users : List String) : List (List String) :=
  tools.foldl (fun acc t => acc ++ ((buildFor t directory root users).getD [])) []

/-- The filesystem state the builder can observe or change: the listing
of the Users directory under the triage root (none when that directory
does not exist) and whether the three output sub-directories exist. -/
structure FS where
  usersBase : Option (List String)
  registryDir : Bool
  userassistDir : Bool
  shellbagDir : Bool
deriving DecidableEq

/-- ToolExecutor._build_commands including its filesystem effects: it
reads the Users listing via list_user_directories and it runs
check_registry_dir, check_userassist_dir and check_shellbag_dir, each
of which creates its output sub-directory if absent (mkdir with
exist_ok).  Returns the command list together with the filesystem state
after the call. -/
def buildCommandsFS (tools : List String) (directory root : String) (fs : FS) :
    List (List String) × FS :=
  let users := listUserDirectories fs.usersBase
  let fs' : FS := { fs with registryDir := true, userassistDir := true, shellbagDir := true }
  (buildCommands tools directory root users, fs')

/- ──────────────────────────────────────────────────────────────────────
   Sequential execution loop (tool_executor.py, ToolExecutor._run and
   ToolExecutor._execute).
   ────────────────────────────────────────────────────────────────────── -/

inductive JobResult
  | ok
  | failed (code : Int)
deriving DecidableEq

/-- ToolExecutor._execute for one command: the child process is
abstracted by its exit status; a non-zero status raises
CalledProcessError which the same function catches (logging, status
label and message box), so control always returns to the caller. -/
def executeCmd (exitCode : Int) : JobResult :=
  if exitCode = 0 then JobResult.ok else JobResult.failed exitCode

/-- The loop of ToolExecutor._run: commands run one at a time in build
order, each via executeCmd, and the loop continues to the next command
regardless of the previous outcome.  A job is a label paired with the
exit status its process will produce. -/
def runLoop : List (String × Int) → List (String × JobResult)
  | [] => []
  | (label, code) :: rest => (label, executeCmd code) :: runLoop rest

/- ──────────────────────────────────────────────────────────────────────
   Output decoding (Popen keyword arguments of the three runners).
   ────────────────────────────────────────────────────────────────────── -/

/-- A token of a child process output stream: either a correctly
decodable character or one malformed byte sequence. -/
inductive ByteTok
  | good (c : Char)
  | bad
deriving DecidableEq

/-- Decoding with errors="replace": malformed sequences become the
Unicode replacement character, decoding never fails. -/
def decodeReplace (s : List ByteTok) : List Char :=
  s.map fun t => match t with
    | ByteTok.good c => c
    | ByteTok.bad => Char.ofNat 0xFFFD

/-- Strict decoding: the first malformed sequence raises
UnicodeDecodeError, modelled as none. -/
def decodeStrict : List ByteTok → Option (List Char)
  | [] => some []
  | ByteTok.good c :: rest => (decodeStrict rest).map (fun l => c :: l)
  | ByteTok.bad :: _ => none

/-- The errors keyword the runner passes to Popen; none when the call
omits it, in which case Python decodes strictly. -/
def decodeWith (errs : Option String) (s : List ByteTok) : Option (List Char) :=
  if errs = some "replace" then some (decodeReplace s) else decodeStrict s

/-- tool_executor.py Popen call: errors="replace". -/
def popenErrorsToolExec : Option String := some "replace"

/-- hayabusa_executor.py Popen call: errors="replace". -/
def popenErrorsHayabusa : Option String := some "replace"

/-- volatility_executor.py Popen call: encoding is given but the errors
keyword is omitted, so the streams are decoded strictly. -/
def popenErrorsVolatility : Option String := none

inductive JobEnd
  | ok
  | failed (code : Int)
  | crashed
deriving DecidableEq

/-- Terminal outcome of one ToolExecutor._execute call as a function of
the exit status and the output stream: a failed decode would escape the
except clause (which only catches CalledProcessError); otherwise the
outcome is decided by the exit status. -/
def toolExecuteEnd (exitCode : Int) (stream : List ByteTok) : JobEnd :=
  match decodeWith popenErrorsToolExec stream with
  | none => JobEnd.crashed
  | some _ => if exitCode = 0 then JobEnd.ok else JobEnd.failed exitCode

/-- Terminal outcome of the hayabusa process section of
HayabusaExecutor._run, same shape as toolExecuteEnd. -/
def hayabusaProcEnd (exitCode : Int) (stream : List ByteTok) : JobEnd :=
  match decodeWith popenErrorsHayabusa stream with
  | none => JobEnd.crashed
  | some _ => if exitCode = 0 then JobEnd.ok else JobEnd.failed exitCode

/- ──────────────────────────────────────────────────────────────────────
   Volatility worker (volatility_executor.py, VolatilityRunner._worker)
   and the queue polling loop (VolatilityRunner._poll_queue).
   ────────────────────────────────────────────────────────────────────── -/

inductive VStatus
  | start
  | ok
  | error
deriving DecidableEq

/-- Result of one VolatilityRunner._worker run after the start event:
written is the text persisted to the declared artifact file (none when
nothing is written) and event is the terminal queue event the worker
posts (none when the worker thread dies without posting one). -/
structure VolWorkerRes where
  written : Option (List Char)
  event : Option VStatus
deriving DecidableEq

/-- VolatilityRunner._worker: communicate decodes the two streams with
the strict policy of the Popen call; a decode failure raises outside
the except CalledProcessError clause and the thread dies without a
terminal event.  Otherwise, a non-zero exit raises CalledProcessError,
caught by the worker itself, which posts the error event and does not
touch the artifact file; a zero exit writes the captured stdout to the
artifact file and posts the ok event. -/
def volWorkerRun (exitCode : Int) (stream : List ByteTok) : VolWorkerRes :=
  match decodeWith popenErrorsVolatility stream with
  | none => ⟨none, none⟩
  | some out =>
      if exitCode = 0 then ⟨some out, some VStatus.ok⟩
      else ⟨none, some VStatus.error⟩

/-- The plugin_error list accumulated by the workers of one batch, given
the jobs in completion order: a failing worker appends exactly its own
label in its own except clause; successful workers append nothing. -/
def volErrors : List (String × Int) → List String
  | [] => []
  | (p, e) :: rest => (if e = 0 then [] else [p]) ++ volErrors rest

/-- Keys of the PLUGINS dictionary of VolatilityRunner, in insertion
order; total_jobs is the length of this list. -/
def volPlugins : List String :=
  ["Pstree", "Pslist", "Psscan", "Netscan", "Cmdline", "Getsids",
   "Malfind", "Ldrmodules", "Ssdt"]

/-- Shared state of one VolatilityRunner batch: the status queue, the
status dictionary (insertion ordered), the plugin_error list, how many
times the finished branch of _poll_queue has run, and how many poll
callbacks are currently scheduled with parent.after. -/
structure VState where
  queue : List (String × VStatus)
  status : List (String × VStatus)
  pluginError : List String
  notices : Nat
  pollPending : Nat
deriving DecidableEq

/-- Python dict update: replace the value of an existing key in place,
append a new key at the end. -/
def setStatus : List (String × VStatus) → String → VStatus → List (String × VStatus)
  | [], p, s => [(p, s)]
  | (q, t) :: rest, p, s =>
      if q = p then (q, s) :: rest else (q, t) :: setStatus rest p s

/-- The finished count of _poll_queue: statuses that are ok or start
with error. -/
def countFinished (status : List (String × VStatus)) : Nat :=
  (status.filter fun e => match e.2 with
    | VStatus.start => false
    | _ => true).length

/-- The while loop of _poll_queue: drain the queue, recording each event
in the status dictionary; whenever the finished count reaches total the
finished branch runs (summary message box, dialog destroyed), counted in
notices. -/
def drainEvents (total : Nat) : List (String × VStatus) → VState → VState
  | [], st => st
  | (p, s) :: evs, st =>
      let status' := setStatus st.status p s
      let finished := countFinished status'
      let notices' := if finished = total then st.notices + 1 else st.notices
      drainEvents total evs { st with status := status', notices := notices' }

/-- One _poll_queue call: drain the whole queue, then schedule another
poll callback if and only if the status dictionary does not yet hold
every plugin. -/
def pollQueue (total : Nat) (st : VState) : VState :=
  let st' := drainEvents total st.queue { st with queue := [] }
  { st' with pollPending := st'.pollPending + (if st'.status.length < total then 1 else 0) }

/-- Atomic actions of the interleaved execution of one batch: a worker
posting its start event, a worker finishing with exit 0 (it posts ok and
then calls _poll_queue itself), a worker finishing with a non-zero exit
(it posts the error event and appends itself to plugin_error but does
not call _poll_queue), and one scheduled poll callback firing. -/
inductive VAct
  | wStart (p : String)
  | wOk (p : String)
  | wErr (p : String)
  | tick
deriving DecidableEq

def stepAct (total : Nat) (st : VState) : VAct → VState
  | VAct.wStart p => { st with queue := st.queue ++ [(p, VStatus.start)] }
  | VAct.wOk p => pollQueue total { st with queue := st.queue ++ [(p, VStatus.ok)] }
  | VAct.wErr p =>
      { st with queue := st.queue ++ [(p, VStatus.error)],
                pluginError := st.pluginError ++ [p] }
  | VAct.tick =>
      if st.pollPending > 0 then pollQueue total { st with pollPending := st.pollPending - 1 }
      else st

/-- Initial state after VolatilityRunner.run has dispatched the plugin
threads: empty queue and status, and one poll callback scheduled by
parent.after(200, _poll_queue). -/
def vInit : VState := ⟨[], [], [], 0, 1⟩

/-- Execute a schedule of atomic actions for the real nine-plugin batch. -/
def volOrch (acts : List VAct) : VState :=
  acts.foldl (stepAct volPlugins.length) vInit

/-- A schedule in which every plugin succeeds: all workers post start,
the scheduled poll drains the start events, then each worker finishes
with exit 0. -/
def volOkSchedule : List VAct :=
  volPlugins.map VAct.wStart ++ [VAct.tick] ++ volPlugins.map VAct.wOk

/-- A schedule in which the last plugin to terminate fails: all workers
post start, the scheduled poll drains the start events (after which the
status dictionary holds all nine plugins, so no further poll is
scheduled), the first eight workers finish with exit 0 and the last one
exits non-zero. -/
def volFailSchedule : List VAct :=
  volPlugins.map VAct.wStart ++ [VAct.tick]
    ++ (volPlugins.take 8).map VAct.wOk ++ [VAct.wErr "Ssdt"]

/- ──────────────────────────────────────────────────────────────────────
   Volatility run gating (VolatilityRunner.run, _install, _is_symbole).
   ────────────────────────────────────────────────────────────────────── -/

inductive RunEv
  | installAttempt
  | probe
  | dispatch (p : String)
deriving DecidableEq

inductive RunOutcome
  | venvMissing
  | installAborted
  | noSymbols
  | started
deriving DecidableEq

/-- VolatilityRunner.run as a trace of externally visible events plus a
terminal outcome.  Inputs: whether the venv directory exists, whether
vol.exe exists before the run, whether vol.exe exists after _install
(install success), and whether the _is_symbole probe command exits 0.
The probe command runs at most once, and plugin threads are dispatched
only on a zero probe exit. -/
def volRunTrace (venvOk exeExists exeAfterInstall probeOk : Bool) :
    List RunEv × RunOutcome :=
  if !venvOk then ([], RunOutcome.venvMissing)
  else if !exeExists && !exeAfterInstall then
    ([RunEv.installAttempt], RunOutcome.installAborted)
  else
    let pre : List RunEv := if !exeExists then [RunEv.installAttempt] else []
    if !probeOk then (pre ++ [RunEv.probe], RunOutcome.noSymbols)
    else (pre ++ [RunEv.probe] ++ volPlugins.map RunEv.dispatch, RunOutcome.started)

/- ──────────────────────────────────────────────────────────────────────
   Hayabusa provisioning gate (hayabusa_executor.py,
   HayabusaExecutor._run, lines before the Popen call).
   ────────────────────────────────────────────────────────────────────── -/

inductive HayaOutcome
  | declined
  | spawnCrash
  | executed
deriving DecidableEq

/-- Observable result of the gate section of HayabusaExecutor._run:
whether control reached _build_command and the Popen call, how many
spawns were attempted, and how the run ends.  spawnCrash stands for the
FileNotFoundError that Popen raises when the executable is still absent;
nothing in _run catches it, so the worker thread dies there. -/
structure HayaGate where
  proceeded : Bool
  spawnAttempts : Nat
  outcome : HayaOutcome
deriving DecidableEq

/-- The gate of HayabusaExecutor._run: when the executable is absent the
user is asked; Yes runs _install (whose failures are caught and only
reported), No destroys the dialog and returns.  After the Yes branch the
code falls through to execution without re-checking the binary.
installOk states whether the binary exists after _install. -/
def hayabusaRun (exeExists userAccepts installOk : Bool) : HayaGate :=
  if exeExists then ⟨true, 1, HayaOutcome.executed⟩
  else if userAccepts then
    if installOk then ⟨true, 1, HayaOutcome.executed⟩
    else ⟨true, 1, HayaOutcome.spawnCrash⟩
  else ⟨false, 0, HayaOutcome.declined⟩

/- ──────────────────────────────────────────────────────────────────────
   Hayabusa line delivery (hayabusa_executor.py, the read loop of
   HayabusaExecutor._run).
   ────────────────────────────────────────────────────────────────────── -/

/-- The character read loop of HayabusaExecutor._run: characters are
read one at a time into buf; a carriage return or line feed closes the
line, which is ANSI-stripped, trimmed and delivered only when non-empty;
at end of stream a non-empty buf is delivered ANSI-stripped but not
trimmed. -/
def hayaLoop : List Char → List Char → List (List Char)
  | [], buf => if buf.isEmpty then [] else [ansiStrip buf]
  | c :: rest, buf =>
    if c = '\r' ∨ c = '\n' then
      let clean := trimChars (ansiStrip buf)
      (if clean.isEmpty then [] else [clean]) ++ hayaLoop rest []
    else hayaLoop rest (buf ++ [c])

/-- Lines delivered to the output sink for a whole stream. -/
def hayabusaLines (s : List Char) : List (List Char) := hayaLoop s []

/-- Modelled from the claim wording, for comparison with hayabusaLines:
split the stream into terminator-ended lines and a final unterminated
remainder (a line is content ended by carriage return or line feed). -/
def splitTerm : List Char → List (List Char) × List Char
  | [] => ([], [])
  | c :: rest =>
    let r := splitTerm rest
    if c = '\r' ∨ c = '\n' then ([] :: r.1, r.2)
    else
      match r.1 with
      | [] => ([], c :: r.2)
      | l :: ls => ((c :: l) :: ls, r.2)

/-- Modelled from the claim wording: every terminated line is escape
stripped and trimmed and dropped when empty; a non-empty final
unterminated remainder is delivered escape stripped without trimming. -/
def specDelivered (s : List Char) : List (List Char) :=
  (((splitTerm s).1.map fun l => trimChars (ansiStrip l)).filter fun l => !l.isEmpty)
    ++ (if (splitTerm s).2.isEmpty then [] else [ansiStrip (splitTerm s).2])

/- ──────────────────────────────────────────────────────────────────────
   Helper lemmas.
   ────────────────────────────────────────────────────────────────────── -/

theorem runLoop_append (xs ys : List (String × Int)) :
    runLoop (xs ++ ys) = runLoop xs ++ runLoop ys := by
  induction xs with
  | nil => rfl
  | cons x xs ih => cases x; simp [runLoop, ih]

theorem volErrors_append (xs ys : List (String × Int)) :
    volErrors (xs ++ ys) = volErrors xs ++ volErrors ys := by
  induction xs with
  | nil => rfl
  | cons x xs ih => cases x; simp [volErrors, ih]

theorem decodeStrict_eq_none_iff (s : List ByteTok) :
    decodeStrict s = none ↔ ByteTok.bad ∈ s := by
  induction s with
  | nil => simp [decodeStrict]
  | cons t rest ih =>
    cases t with
    | good c => simp [decodeStrict, Option.map_eq_none', ih]
    | bad => simp [decodeStrict]

theorem splitTerm_no_term (l : List Char) (h : ∀ c ∈ l, ¬(c = '\r' ∨ c = '\n')) :
    splitTerm l = ([], l) := by
  induction l with
  | nil => rfl
  | cons c l ih =>
    have hc : ¬(c = '\r' ∨ c = '\n') := h c (List.mem_cons_self c l)
    have hrest := ih fun x hx => h x (List.mem_cons_of_mem c hx)
    simp [splitTerm, hrest, hc]

theorem splitTerm_append_term (buf : List Char)
    (hb : ∀ x ∈ buf, ¬(x = '\r' ∨ x = '\n')) {c : Char} (hc : c = '\r' ∨ c = '\n')
    (s : List Char) :
    splitTerm (buf ++ c :: s) = (buf :: (splitTerm s).1, (splitTerm s).2) := by
  induction buf with
  | nil => simp [splitTerm, hc]
  | cons b buf ih =>
    have hb' : ¬(b = '\r' ∨ b = '\n') := hb b (List.mem_cons_self b buf)
    have ih' := ih fun x hx => hb x (List.mem_cons_of_mem b hx)
    simp [splitTerm, ih', hb']

theorem hayaLoop_eq_specDelivered (s : List Char) :
    ∀ buf : List Char, (∀ x ∈ buf, ¬(x = '\r' ∨ x = '\n')) →
      hayaLoop s buf = specDelivered (buf ++ s) := by
  induction s with
  | nil =>
    intro buf hb
    simp [hayaLoop, specDelivered, splitTerm_no_term buf hb]
  | cons c s ih =>
    intro buf hb
    by_cases hc : c = '\r' ∨ c = '\n'
    · have hsplit := splitTerm_append_term buf hb hc s
      simp only [hayaLoop, if_pos hc]
      rw [ih [] (by simp)]
      unfold specDelivered
      rw [hsplit]
      by_cases hcl : (trimChars (ansiStrip buf)).isEmpty = true <;>
        simp [hcl, List.filter_cons, List.append_assoc]
    · have hb2 : ∀ x ∈ buf ++ [c], ¬(x = '\r' ∨ x = '\n') := by
        intro x hx
        rcases List.mem_append.1 hx with h | h
        · exact hb x h
        · simp at h
          subst h
          exact hc
      simp only [hayaLoop, if_neg hc]
      rw [ih (buf ++ [c]) hb2, List.append_assoc]
      rfl

/- ──────────────────────────────────────────────────────────────────────
   Claim theorems.
   ────────────────────────────────────────────────────────────────────── -/

/-- Claim C1: the spec asserts every batch reaches the terminal Finished
notification exactly once regardless of how many jobs failed, and that a
final job-completion event is never left unprocessed.  Evaluating the
orchestration at the two schedules shows the code violates this: when
every plugin succeeds the notification fires exactly once, but in the
realistic schedule where the scheduled poll drains all nine start events
(stopping further polls, since every plugin then has a status entry) and
the last plugin to terminate fails, its error event stays in the queue
forever, no poll callback remains scheduled, and the finished branch
never runs. -/
theorem c1_finished_notification_lost :
    (volOrch volOkSchedule).notices = 1
  ∧ (volOrch volFailSchedule).notices = 0
  ∧ (volOrch volFailSchedule).queue ≠ []
  ∧ (volOrch volFailSchedule).pollPending = 0 := by
  refine ⟨by decide, by decide, by decide, by decide⟩

/-- Claim C2, counterexample: with zero discovered entities the RECmd
entry still produces one command (the fixed DFIRBatch registry run), so
the number of commands for that tool does not equal the number of
discovered entities. -/
theorem c2_counterexample :
    ((buildFor "RECmd\\RECmd.exe" "tools" "triage" []).getD []).length ≠ 0 := by
  decide

/-- Claim C2, amended: JLECmd, LECmd and SBECmd emit exactly one command
per discovered user directory (zero entities give zero commands, not an
error); RECmd emits one command per discovered user directory plus one
fixed registry-wide command, hence entities plus one. -/
theorem c2_entity_command_counts (d r : String) (users : List String) :
    ((buildFor "JLECmd.exe" d r users).getD []).length = users.length
  ∧ ((buildFor "LECmd.exe" d r users).getD []).length = users.length
  ∧ ((buildFor "SBECmd.exe" d r users).getD []).length = users.length
  ∧ ((buildFor "RECmd\\RECmd.exe" d r users).getD []).length = users.length + 1 := by
  refine ⟨?_, ?_, ?_, ?_⟩ <;> simp [buildFor]

/-- Claim C3, counterexample: selecting MFTECmd emits two commands (one
for the MFT, one for the USN journal), not exactly one. -/
theorem c3_counterexample :
    ((buildFor "MFTECmd.exe" "tools" "triage" []).getD []).length ≠ 1 := by
  decide

/-- Claim C3, amended: AmcacheParser, AppCompatCacheParser, EvtxECmd and
PECmd each emit exactly one CommandSpec; MFTECmd emits exactly two. -/
theorem c3_fixed_command_counts (d r : String) (users : List String) :
    ((buildFor "AmcacheParser.exe" d r users).getD []).length = 1
  ∧ ((buildFor "AppCompatCacheParser.exe" d r users).getD []).length = 1
  ∧ ((buildFor "EvtxECmd\\EvtxECmd.exe" d r users).getD []).length = 1
  ∧ ((buildFor "PECmd.exe" d r users).getD []).length = 1
  ∧ ((buildFor "MFTECmd.exe" d r users).getD []).length = 2 := by
  refine ⟨?_, ?_, ?_, ?_, ?_⟩ <;> simp [buildFor]

/-- Claim C4: failure isolation.  In the sequential runner the batch
result decomposes around any job: the job itself is recorded via its own
exit status only, every earlier and every later job is still executed
and their outcomes are those they would have had in isolation.  In the
concurrent volatility runner the plugin_error list decomposes the same
way around any worker: a failing worker contributes exactly its own
label and the contributions of all sibling workers are unchanged. -/
theorem c4_failure_isolation :
    (∀ (pre : List (String × Int)) (label : String) (code : Int)
        (post : List (String × Int)),
      runLoop (pre ++ (label, code) :: post)
        = runLoop pre ++ (label, executeCmd code) :: runLoop post)
  ∧ (∀ (pre : List (String × Int)) (p : String) (e : Int)
        (post : List (String × Int)),
      volErrors (pre ++ (p, e) :: post)
        = volErrors pre ++ (if e = 0 then [] else [p]) ++ volErrors post) := by
  constructor
  · intro pre label code post
    rw [runLoop_append]
    rfl
  · intro pre p e post
    rw [volErrors_append, List.append_assoc]
    rfl

/-- Claim C5: for every memory-analysis batch that passes provisioning
(the venv exists and vol.exe is present, before or after the install
step), the symbol probe command runs exactly once and before any plugin
dispatch; a non-zero probe exit ends the run with the distinguished
no-symbol-table outcome and zero plugins dispatched, while a zero exit
starts execution. -/
theorem c5_precondition_probe_gate (v e a p : Bool) (hv : v = true)
    (he : e = true ∨ a = true) :
    ((volRunTrace v e a p).1.count RunEv.probe = 1)
  ∧ (∃ pre post, (volRunTrace v e a p).1 = pre ++ RunEv.probe :: post
       ∧ ∀ q : String, RunEv.dispatch q ∉ pre)
  ∧ (p = false → (volRunTrace v e a p).2 = RunOutcome.noSymbols
       ∧ ∀ q : String, RunEv.dispatch q ∉ (volRunTrace v e a p).1)
  ∧ (p = true → (volRunTrace v e a p).2 = RunOutcome.started) := by
  subst hv
  cases e <;> cases a <;> cases p
  · rcases he with h | h <;> exact absurd h (by decide)
  · rcases he with h | h <;> exact absurd h (by decide)
  · refine ⟨by decide, ⟨[RunEv.installAttempt], [], by decide, by intro q; simp⟩, ?_, ?_⟩
    · intro hp
      refine ⟨by decide, ?_⟩
      intro q
      simp [volRunTrace]
    · intro hp
      exact absurd hp (by decide)
  · refine ⟨by decide,
      ⟨[RunEv.installAttempt], volPlugins.map RunEv.dispatch, by decide, by intro q; simp⟩,
      ?_, ?_⟩
    · intro hp
      exact absurd hp (by decide)
    · intro hp
      decide
  · refine ⟨by decide, ⟨[], [], by decide, by intro q; simp⟩, ?_, ?_⟩
    · intro hp
      refine ⟨by decide, ?_⟩
      intro q
      simp [volRunTrace]
    · intro hp
      exact absurd hp (by decide)
  · refine ⟨by decide, ⟨[], volPlugins.map RunEv.dispatch, by decide, by intro q; simp⟩,
      ?_, ?_⟩
    · intro hp
      exact absurd hp (by decide)
    · intro hp
      decide
  · refine ⟨by decide, ⟨[], [], by decide, by intro q; simp⟩, ?_, ?_⟩
    · intro hp
      refine ⟨by decide, ?_⟩
      intro q
      simp [volRunTrace]
    · intro hp
      exact absurd hp (by decide)
  · refine ⟨by decide, ⟨[], volPlugins.map RunEv.dispatch, by decide, by intro q; simp⟩,
      ?_, ?_⟩
    · intro hp
      exact absurd hp (by decide)
    · intro hp
      decide

/-- Claim C5, witness: the theorem applied at the concrete input where
the venv and vol.exe exist and the probe fails. -/
theorem c5_precondition_probe_gate_witness :
    (true = true) ∧ (true = true ∨ true = true)
  ∧ (((volRunTrace true true true false).1.count RunEv.probe = 1)
     ∧ (∃ pre post, (volRunTrace true true true false).1 = pre ++ RunEv.probe :: post
          ∧ ∀ q : String, RunEv.dispatch q ∉ pre)
     ∧ (false = false → (volRunTrace true true true false).2 = RunOutcome.noSymbols
          ∧ ∀ q : String, RunEv.dispatch q ∉ (volRunTrace true true true false).1)
     ∧ (false = true → (volRunTrace true true true false).2 = RunOutcome.started)) :=
  ⟨rfl, Or.inl rfl, c5_precondition_probe_gate true true true false rfl (Or.inl rfl)⟩

/-- Claim C6, counterexample: in the Hayabusa runner, when the binary is
absent, the user accepts the install and the install fails (the binary
is still absent), the run does not terminate directly: it proceeds to
build the command and attempt the spawn, which dies with an uncaught
FileNotFoundError instead of a terminal notification. -/
theorem c6_counterexample :
    (hayabusaRun false true false).proceeded = true
  ∧ (hayabusaRun false true false).spawnAttempts ≠ 0
  ∧ (hayabusaRun false true false).outcome = HayaOutcome.spawnCrash := by
  refine ⟨rfl, by decide, rfl⟩

/-- Claim C6, amended: in the Volatility runner the claim holds — when
vol.exe is absent and still absent after the install the batch returns
directly with zero jobs dispatched, and a successful install proceeds to
the probe and on to execution.  In the Hayabusa runner declining the
install terminates the batch with zero spawns attempted and a successful
install proceeds; after a failed install, however, the runner does not
re-check the binary and proceeds to attempt execution, ending in an
uncaught spawn error. -/
theorem c6_provisioning_gate_amended :
    (∀ p, volRunTrace true false false p = ([RunEv.installAttempt], RunOutcome.installAborted))
  ∧ (∀ p, (volRunTrace true false true p).2
        = (if p then RunOutcome.started else RunOutcome.noSymbols))
  ∧ (∀ i, hayabusaRun false false i = ⟨false, 0, HayaOutcome.declined⟩)
  ∧ hayabusaRun false true true = ⟨true, 1, HayaOutcome.executed⟩
  ∧ hayabusaRun false true false = ⟨true, 1, HayaOutcome.spawnCrash⟩ := by
  refine ⟨?_, ?_, ?_, rfl, rfl⟩
  · intro p
    cases p <;> rfl
  · intro p
    cases p <;> rfl
  · intro i
    cases i <;> rfl

/-- Claim C7, counterexample: a volatility plugin whose process exits 0
but whose stream contains one malformed byte sequence never reaches a
terminal outcome — the strict decode raises outside the except clause
and the worker dies without posting any event — contradicting the claim
that a decode error never aborts the job. -/
theorem c7_counterexample :
    (volWorkerRun 0 [ByteTok.bad]).event = none
  ∧ (volWorkerRun 0 [ByteTok.bad]).event ≠ some VStatus.ok := by
  refine ⟨rfl, by decide⟩

/-- Claim C7, amended: the EZ-Tools runner and the Hayabusa runner pass
errors replace to Popen, so their jobs always reach the outcome decided
by the exit status whatever the stream contains; the Volatility runner
omits the errors keyword (relying only on forcing the child to emit
UTF-8 through its environment), decodes strictly, and a malformed
sequence in its stream kills the worker with no terminal event, while a
well-formed stream yields the outcome decided by the exit status. -/
theorem c7_decode_policy_amended (e : Int) (s : List ByteTok) :
    toolExecuteEnd e s = (if e = 0 then JobEnd.ok else JobEnd.failed e)
  ∧ hayabusaProcEnd e s = (if e = 0 then JobEnd.ok else JobEnd.failed e)
  ∧ (volWorkerRun e s).event
      = (if ByteTok.bad ∈ s then none
         else some (if e = 0 then VStatus.ok else VStatus.error)) := by
  refine ⟨?_, ?_, ?_⟩
  · simp [toolExecuteEnd, decodeWith, popenErrorsToolExec]
  · simp [hayabusaProcEnd, decodeWith, popenErrorsHayabusa]
  · simp only [volWorkerRun, decodeWith, popenErrorsVolatility]
    by_cases hmem : ByteTok.bad ∈ s
    · have hnone : decodeStrict s = none := (decodeStrict_eq_none_iff s).2 hmem
      simp [hnone, hmem]
    · have hne : decodeStrict s ≠ none := fun h => hmem ((decodeStrict_eq_none_iff s).1 h)
      cases hd : decodeStrict s with
      | none => exact absurd hd hne
      | some out =>
        by_cases hz : e = 0 <;> simp [hd, hmem, hz]

/-- Claim C8, counterexample: the builder does have an observable side
effect besides the discovery read — on a filesystem where the three
output sub-directories are absent, one call creates them, so the
filesystem state after the call differs from the state before it. -/
theorem c8_counterexample :
    (buildCommandsFS ["PECmd.exe"] "tools" "triage"
        ⟨some ["Alice"], false, false, false⟩).2
      ≠ ⟨some ["Alice"], false, false, false⟩ := by
  decide

/-- Claim C8, amended: the builder performs no execution, and besides
the discovery read its only side effect is ensuring the three output
sub-directories exist; it is idempotent — calling it again on the
filesystem state it produced returns the same ordered command list and
leaves that state unchanged. -/
theorem c8_builder_idempotent (tools : List String) (d r : String) (fs : FS) :
    buildCommandsFS tools d r (buildCommandsFS tools d r fs).2
      = buildCommandsFS tools d r fs := rfl

/-- Claim C9: a volatility worker writes the declared artifact file only
when its plugin process exits 0; on a non-zero exit the CalledProcessError
is raised before the write, so nothing is written to the declared output
path. -/
theorem c9_artifact_only_on_success (exitCode : Int) (stream : List ByteTok)
    (h : exitCode ≠ 0) : (volWorkerRun exitCode stream).written = none := by
  unfold volWorkerRun
  cases hd : decodeWith popenErrorsVolatility stream with
  | none => rfl
  | some out => simp [h]

/-- Claim C9, witness: the theorem applied at exit status 2 with a
well-formed one-character stream. -/
theorem c9_artifact_only_on_success_witness :
    ((2 : Int) ≠ 0) ∧ (volWorkerRun 2 [ByteTok.good 'x']).written = none :=
  ⟨by decide, c9_artifact_only_on_success 2 [ByteTok.good 'x'] (by decide)⟩

/-- Claim C10: the Hayabusa read loop delivers exactly the terminated
lines that are non-empty after escape stripping and whitespace trimming
(every terminated line that strips and trims to empty is silently
dropped), followed by the final unterminated remainder, delivered
escape stripped but untrimmed whenever the raw remainder is non-empty. -/
theorem c10_line_delivery (s : List Char) : hayabusaLines s = specDelivered s := by
  have h := hayaLoop_eq_specDelivered s [] (by simp)
  simpa [hayabusaLines] using h
